import Mathlib

/-
Formal model of src/packages/extension-ui/src/Popup/ImportSeed/SeedAndPath.tsx.

The component owns local state (seed, path, advanced, error, genesis,
address) plus the keypair type passed down from the parent.  A reactive
effect keyed on [t, genesis, seed, path, onAccountChange, type] validates
the combined suri through an external validateSeed service.  We embed the
effect body as a pure function (runEffect), the two handlers
(_onToggleAdvanced and _onTypeChange) as pure functions, and the whole
component as an event-driven transition system (applyEvent) whose ghost
field roundTrips records every completed validator round-trip, most recent
first.  JavaScript truthiness of the optional string fields (null or the
empty string count as false) is embedded as the function falsy.
-/

namespace SeedAndPath

/-- Account record: the fields the validator returns (address plus other
metadata such as the suri) together with the genesis and type fields that
objectSpread merges in.  Models AccountInfo from ImportSeed. -/
structure AccountInfo where
  address : String
  suri : String
  genesis : String
  type : String
deriving DecidableEq

/-- Local component state: useState hooks of SeedAndPath (lines 37-42).
address and error start as the empty string, seed and path start as null
(none), advanced starts false, genesis starts as the empty string. -/
structure State where
  address : String
  seed : Option String
  path : Option String
  advanced : Bool
  error : String
  genesis : String
deriving DecidableEq

/-- The mount-time values of the useState hooks. -/
def initialState : State :=
  { address := "", seed := none, path := none, advanced := false,
    error := "", genesis := "" }

/-- JavaScript truthiness test on an optional string: null and the empty
string are falsy (the test in `if (!seed)` and in `path ? _ : _`). -/
def falsy : Option String → Bool
  | none => true
  | some s => s == ""

/-- Line 28: const keypairTypes = ['ed25519', 'sr25519', 'ecdsa']. -/
def keypairTypes : List String := ["ed25519", "sr25519", "ecdsa"]

/-- Lines 30-32: keypairTypes.includes(value). -/
def isKeypairType (value : String) : Bool := keypairTypes.contains value

/-- Line 65: objectSpread({}, validatedAccount, { genesis, type }).
The later spread wins, so the local genesis and type override whatever the
validator returned for those fields; every other field of the validated
account is kept. -/
def objectSpread (validatedAccount : AccountInfo) (genesis ty : String) :
    AccountInfo :=
  { validatedAccount with genesis := genesis, type := ty }

/-- The external validateSeed service (messaging boundary): given the suri
string and the keypair type it either resolves with an account record
(some) or rejects (none). -/
def Validator := String → String → Option AccountInfo

/-- Ghost record of one completed validator round-trip: the seed, path and
type at the time of the call, the submitted suri, and the outcome. -/
structure RoundTrip where
  seedAtCall : Option String
  pathAtCall : Option String
  tyAtCall : String
  suri : String
  result : Option AccountInfo
deriving DecidableEq

/-- What one run of the effect body does: the updated local state, the
argument passed to onAccountChange if it was called (some none means
onAccountChange(null)), and the round-trip performed, if any. -/
structure EffectResult where
  state : State
  emitted : Option (Option AccountInfo)
  roundTrip : Option RoundTrip
deriving DecidableEq

/-- Lines 49-76, the body of the useEffect.  Empty (falsy) seed: call
onAccountChange(null) and return without touching state or the validator.
Otherwise build suri from seed and path (falsy path contributes the empty
string), call validateSeed(suri, type); on success set error to the empty
string, set address to the returned address and forward the merged record;
on rejection clear address, forward null and set the error message, whose
text depends on the truthiness of path. -/
def runEffect (validateSeed : Validator) (ty : String) (s : State) :
    EffectResult :=
  if falsy s.seed then
    { state := s, emitted := some none, roundTrip := none }
  else
    let suri := s.seed.getD "" ++ s.path.getD ""
    match validateSeed suri ty with
    | some validatedAccount =>
        { state := { s with error := "", address := validatedAccount.address },
          emitted := some (some (objectSpread validatedAccount s.genesis ty)),
          roundTrip := some { seedAtCall := s.seed, pathAtCall := s.path,
                              tyAtCall := ty, suri := suri,
                              result := some validatedAccount } }
    | none =>
        { state := { s with
                       address := "",
                       error := if falsy s.path then "Invalid mnemonic seed"
                                else "Invalid mnemonic seed or derivation path" },
          emitted := some none,
          roundTrip := some { seedAtCall := s.seed, pathAtCall := s.path,
                              tyAtCall := ty, suri := suri,
                              result := none } }

/-- Line 154: isDisabled = !address or !!error.  The Next button is
disabled when address is the empty string or error is non-empty. -/
def nextStepDisabled (s : State) : Bool :=
  (s.address == "") || !(s.error == "")

/-- Lines 78-80: _onToggleAdvanced only negates the advanced flag. -/
def onToggleAdvanced (s : State) : State :=
  { s with advanced := !s.advanced }

/-- Result of the crypto-type dropdown handler: the updated local state and
the value forwarded through onTypeChange, if any. -/
structure TypeChangeResult where
  state : State
  forwarded : Option String
deriving DecidableEq

/-- Lines 82-88: _onTypeChange forwards a recognised keypair type through
onTypeChange and otherwise clears the error text. -/
def onTypeChangeHandler (s : State) (value : String) : TypeChangeResult :=
  if isKeypairType value then { state := s, forwarded := some value }
  else { state := { s with error := "" }, forwarded := none }

/-- User-visible events of the component: editing the seed textarea, the
derivation-path input or the genesis dropdown, clicking the advanced
toggle, and picking a value in the crypto-type dropdown. -/
inductive Event where
  | setSeed : String → Event
  | setPath : String → Event
  | setGenesis : String → Event
  | toggleAdvanced : Event
  | typeChange : String → Event

/-- Whole-system state: the local state, the type prop held by the parent,
and the ghost list of completed round-trips (most recent first). -/
structure Sys where
  state : State
  ty : String
  roundTrips : List RoundTrip
deriving DecidableEq

/-- Run the effect on the current state and record the round-trip, if one
happened, at the head of the ghost history. -/
def runAndRecord (validateSeed : Validator) (sys : Sys) : Sys :=
  let r := runEffect validateSeed sys.ty sys.state
  { sys with
    state := r.state,
    roundTrips := match r.roundTrip with
      | some rt => rt :: sys.roundTrips
      | none => sys.roundTrips }

/-- Mount: initial hook values, then the effect runs once. -/
def initSys (validateSeed : Validator) (ty0 : String) : Sys :=
  runAndRecord validateSeed { state := initialState, ty := ty0, roundTrips := [] }

/-- One step of the component.  The effect dependency list is
[t, genesis, seed, path, onAccountChange, type]: editing seed, path or
genesis re-runs the effect, as does a type change that onTypeChange
forwards to the parent (the type prop is a dependency).  The advanced
toggle is not a dependency, so it runs no effect; neither does a rejected
dropdown value, which only clears the error (error is not a dependency). -/
def applyEvent (validateSeed : Validator) (sys : Sys) : Event → Sys
  | .setSeed v =>
      runAndRecord validateSeed
        { sys with state := { sys.state with seed := some v } }
  | .setPath v =>
      runAndRecord validateSeed
        { sys with state := { sys.state with path := some v } }
  | .setGenesis v =>
      runAndRecord validateSeed
        { sys with state := { sys.state with genesis := v } }
  | .toggleAdvanced =>
      { sys with state := onToggleAdvanced sys.state }
  | .typeChange v =>
      match (onTypeChangeHandler sys.state v).forwarded with
      | some newTy =>
          runAndRecord validateSeed
            { sys with state := (onTypeChangeHandler sys.state v).state,
                       ty := newTy }
      | none => { sys with state := (onTypeChangeHandler sys.state v).state }

/-- The states the component can reach from mount by user events. -/
def reachable (validateSeed : Validator) (ty0 : String) (sys : Sys) : Prop :=
  ∃ events : List Event,
    sys = events.foldl (applyEvent validateSeed) (initSys validateSeed ty0)

/-! ### Concrete sample inputs used by witnesses and counterexamples -/

/-- A sample account returned by the sample validator.  Its genesis and
type fields deliberately differ from the local selections, so a witness
can exhibit that objectSpread lets the local selections win. -/
def sampleAccount : AccountInfo :=
  { address := "5Abc", suri := "good seed",
    genesis := "genesis-from-validator", type := "ed25519" }

/-- A sample validator: accepts exactly the suri "good seed" with type
"sr25519" and rejects everything else. -/
def sampleValidator : Validator := fun suri ty =>
  if suri == "good seed" && ty == "sr25519" then some sampleAccount else none

/-- A state in which a non-empty seed has been typed. -/
def seededState : State :=
  { address := "", seed := some "good seed", path := none, advanced := false,
    error := "", genesis := "" }

/-- A state with a seed and a non-empty derivation path. -/
def seededPathState : State :=
  { address := "", seed := some "bad seed", path := some "//bad",
    advanced := false, error := "", genesis := "" }

/-- Event trace: type a valid seed (the validation succeeds), then clear
the seed textarea. -/
def clearedSeedTrace : List Event := [Event.setSeed "good seed", Event.setSeed ""]

/-- The system state after clearedSeedTrace: the address of the earlier
success survives while the seed is empty. -/
def clearedSeedSys : Sys :=
  clearedSeedTrace.foldl (applyEvent sampleValidator)
    (initSys sampleValidator "sr25519")

/-- A state with a surviving address and an already-cleared seed. -/
def survivedState : State :=
  { address := "5Abc", seed := some "", path := none, advanced := false,
    error := "", genesis := "" }

/-! ### Claims about the effect body and the pure handlers -/

/-- Claim C3: for every successful validator response, the effect sets the
address to the returned address, sets the error text to empty, and calls
onAccountChange with the validator record merged (objectSpread) with the
current genesis and type. -/
theorem c3_success_branch (validateSeed : Validator) (ty : String) (s : State)
    (acc : AccountInfo) (hseed : falsy s.seed = false)
    (hval : validateSeed (s.seed.getD "" ++ s.path.getD "") ty = some acc) :
    (runEffect validateSeed ty s).state.address = acc.address ∧
    (runEffect validateSeed ty s).state.error = "" ∧
    (runEffect validateSeed ty s).emitted =
      some (some (objectSpread acc s.genesis ty)) := by
  simp [runEffect, hseed, hval]

/-- Claim C3, witness: the sample validator accepts the sample seed. -/
theorem c3_success_branch_witness :
    (runEffect sampleValidator "sr25519" seededState).state.address =
      sampleAccount.address ∧
    (runEffect sampleValidator "sr25519" seededState).state.error = "" ∧
    (runEffect sampleValidator "sr25519" seededState).emitted =
      some (some (objectSpread sampleAccount seededState.genesis "sr25519")) :=
  c3_success_branch sampleValidator "sr25519" seededState sampleAccount
    (by decide) (by decide)

/-- Claim C4: for every rejected validator call, the effect clears the
address, calls onAccountChange(null), and sets the error text to the path
variant of the message exactly when the derivation path is truthy
(non-null and non-empty). -/
theorem c4_failure_branch (validateSeed : Validator) (ty : String) (s : State)
    (hseed : falsy s.seed = false)
    (hval : validateSeed (s.seed.getD "" ++ s.path.getD "") ty = none) :
    (runEffect validateSeed ty s).state.address = "" ∧
    (runEffect validateSeed ty s).emitted = some none ∧
    (runEffect validateSeed ty s).state.error =
      (if falsy s.path then "Invalid mnemonic seed"
       else "Invalid mnemonic seed or derivation path") := by
  simp [runEffect, hseed, hval]

/-- Claim C4, witness: the sample validator rejects a bad seed with a
non-empty derivation path, producing the path variant of the message. -/
theorem c4_failure_branch_witness :
    (runEffect sampleValidator "sr25519" seededPathState).state.address = "" ∧
    (runEffect sampleValidator "sr25519" seededPathState).emitted = some none ∧
    (runEffect sampleValidator "sr25519" seededPathState).state.error =
      (if falsy seededPathState.path then "Invalid mnemonic seed"
       else "Invalid mnemonic seed or derivation path") :=
  c4_failure_branch sampleValidator "sr25519" seededPathState
    (by decide) (by decide)

/-- Claim C5: whenever the seed is truthy, the effect submits to the
validator exactly the concatenation of the seed and the path (null treated
as the empty string) together with the current type, and records the
outcome of that call. -/
theorem c5_suri_concat (validateSeed : Validator) (ty : String) (s : State)
    (hseed : falsy s.seed = false) :
    (runEffect validateSeed ty s).roundTrip =
      some { seedAtCall := s.seed, pathAtCall := s.path, tyAtCall := ty,
             suri := s.seed.getD "" ++ s.path.getD "",
             result := validateSeed (s.seed.getD "" ++ s.path.getD "") ty } := by
  cases hv : validateSeed (s.seed.getD "" ++ s.path.getD "") ty <;>
    simp [runEffect, hseed, hv]

/-- Claim C5, witness: seed "bad seed" and path "//bad" submit the suri
"bad seed//bad" with the current type. -/
theorem c5_suri_concat_witness :
    (runEffect sampleValidator "sr25519" seededPathState).roundTrip =
      some { seedAtCall := seededPathState.seed,
             pathAtCall := seededPathState.path, tyAtCall := "sr25519",
             suri := seededPathState.seed.getD "" ++ seededPathState.path.getD "",
             result := sampleValidator
               (seededPathState.seed.getD "" ++ seededPathState.path.getD "")
               "sr25519" } :=
  c5_suri_concat sampleValidator "sr25519" seededPathState (by decide)

/-- Claim C6: the Next button is enabled exactly when the address is
non-empty and the error text is empty. -/
theorem c6_next_button (s : State) :
    nextStepDisabled s = false ↔ (s.address ≠ "" ∧ s.error = "") := by
  simp [nextStepDisabled]

/-- Claim C7: the advanced toggle only negates the advanced flag: seed,
path, genesis, type, address, error and the round-trip history are all
unchanged, and no validator call happens. -/
theorem c7_toggle_frame (validateSeed : Validator) (sys : Sys) :
    applyEvent validateSeed sys Event.toggleAdvanced =
      { sys with state := { sys.state with advanced := !sys.state.advanced } } ∧
    (applyEvent validateSeed sys Event.toggleAdvanced).roundTrips =
      sys.roundTrips :=
  ⟨rfl, rfl⟩

/-- Claim C8: the crypto-type handler forwards a recognised value through
onTypeChange leaving the state unchanged, and on any other value forwards
nothing and clears the error text (the handler is total, so no exception
can propagate). -/
theorem c8_type_change (s : State) (value : String) :
    (onTypeChangeHandler s value).forwarded =
      (if isKeypairType value then some value else none) ∧
    (onTypeChangeHandler s value).state =
      (if isKeypairType value then s else { s with error := "" }) := by
  by_cases hk : isKeypairType value = true <;>
    simp [onTypeChangeHandler, hk]

/-- Claim C9: when the seed is falsy (null or empty) the effect leaves the
whole local state untouched, so in particular the address and the error
text keep their previous values. -/
theorem c9_empty_seed_frame (validateSeed : Validator) (ty : String)
    (s : State) (hseed : falsy s.seed = true) :
    (runEffect validateSeed ty s).state = s := by
  simp [runEffect, hseed]

/-- Claim C9, witness: a surviving address next to an emptied seed is kept
as is by the effect. -/
theorem c9_empty_seed_frame_witness :
    (runEffect sampleValidator "sr25519" survivedState).state = survivedState :=
  c9_empty_seed_frame sampleValidator "sr25519" survivedState (by decide)

/-- Claim C10: the candidate forwarded on success always carries the
current genesis and type selections, whatever the validator returned in
those fields, while the other returned fields are kept. -/
theorem c10_merge_override (validateSeed : Validator) (ty : String)
    (s : State) (acc : AccountInfo) (hseed : falsy s.seed = false)
    (hval : validateSeed (s.seed.getD "" ++ s.path.getD "") ty = some acc) :
    (runEffect validateSeed ty s).emitted =
      some (some { address := acc.address, suri := acc.suri,
                   genesis := s.genesis, type := ty }) := by
  simp [runEffect, hseed, hval, objectSpread]

/-- Claim C10, witness: the sample account carries the genesis
"genesis-from-validator" and the type "ed25519", yet the forwarded
candidate carries the local selections (empty genesis, "sr25519"). -/
theorem c10_merge_override_witness :
    (runEffect sampleValidator "sr25519" seededState).emitted =
      some (some { address := "5Abc", suri := "good seed",
                   genesis := "", type := "sr25519" }) :=
  c10_merge_override sampleValidator "sr25519" seededState sampleAccount
    (by decide) (by decide)

/-! ### Claim C1: the empty-seed branch and the Next button -/

/-- Claim C1 as stated: in every reachable state whose seed is empty, the
effect forwards null, performs no validator call, and the Next button is
disabled. -/
def claimC1 (validateSeed : Validator) (ty0 : String) : Prop :=
  ∀ sys, reachable validateSeed ty0 sys → falsy sys.state.seed = true →
    (runEffect validateSeed sys.ty sys.state).emitted = some none ∧
    (runEffect validateSeed sys.ty sys.state).roundTrip = none ∧
    nextStepDisabled sys.state = true

/-- Claim C1, counterexample: after a successful validation followed by
clearing the seed textarea, the seed is empty yet the Next button is still
enabled, because the empty-seed branch leaves address and error untouched.
The first two conjuncts of the claim do hold; the third fails. -/
theorem c1_counterexample : ¬ claimC1 sampleValidator "sr25519" := by
  intro h
  have hc := h clearedSeedSys ⟨clearedSeedTrace, rfl⟩ (by decide)
  exact absurd hc.2.2 (by decide)

/-- Claim C1, amended: in every state whose seed is empty the effect
forwards null via onAccountChange and performs no validator call; the Next
button is moreover disabled whenever the address is also empty (as it is
in the initial state), though an address surviving from an earlier
successful validation can leave it enabled. -/
theorem c1_empty_seed_amended (validateSeed : Validator) (ty : String)
    (s : State) (hseed : falsy s.seed = true) :
    (runEffect validateSeed ty s).emitted = some none ∧
    (runEffect validateSeed ty s).roundTrip = none ∧
    (s.address = "" →
      nextStepDisabled (runEffect validateSeed ty s).state = true) := by
  refine ⟨by simp [runEffect, hseed], by simp [runEffect, hseed], ?_⟩
  intro haddr
  simp [runEffect, hseed, nextStepDisabled, haddr]

/-- Claim C1 amended, witness: the initial state has a null seed and an
empty address, so null is forwarded, no validator call happens, and the
Next button is disabled. -/
theorem c1_empty_seed_amended_witness :
    (runEffect sampleValidator "sr25519" initialState).emitted = some none ∧
    (runEffect sampleValidator "sr25519" initialState).roundTrip = none ∧
    nextStepDisabled (runEffect sampleValidator "sr25519" initialState).state =
      true :=
  have h := c1_empty_seed_amended sampleValidator "sr25519" initialState
    (by decide)
  ⟨h.1, h.2.1, h.2.2 (by decide)⟩

/-! ### Claim C2: the address invariant -/

/-- The address recorded by the most recent round-trip: its returned
address on success, the empty string on failure or when none exists. -/
def headAddr : List RoundTrip → String
  | [] => ""
  | rt :: _ =>
    match rt.result with
    | some acc => acc.address
    | none => ""

/-- The most recent completed round-trip whose seed, path and type all
match the current ones (the history is most recent first). -/
def mostRecentForCurrentCombo (sys : Sys) : Option RoundTrip :=
  sys.roundTrips.find? fun rt =>
    rt.seedAtCall == sys.state.seed && rt.pathAtCall == sys.state.path &&
      rt.tyAtCall == sys.ty

/-- Claim C2 as stated: in every reachable state, the address is non-empty
exactly when the most recently completed round-trip for the current
seed, path and type combination succeeded. -/
def claimC2 (validateSeed : Validator) (ty0 : String) : Prop :=
  ∀ sys, reachable validateSeed ty0 sys →
    (sys.state.address ≠ "" ↔
      ∃ rt, mostRecentForCurrentCombo sys = some rt ∧ rt.result.isSome = true)

/-- Claim C2, counterexample: after a successful validation followed by
clearing the seed, the address is still non-empty, yet no round-trip at
all was completed for the now-current combination (the empty seed is never
submitted). -/
theorem c2_counterexample : ¬ claimC2 sampleValidator "sr25519" := by
  intro h
  obtain ⟨rt, hrt, -⟩ :=
    (h clearedSeedSys ⟨clearedSeedTrace, rfl⟩).mp (by decide)
  have hnone : mostRecentForCurrentCombo clearedSeedSys = none := by decide
  rw [hnone] at hrt
  exact Option.noConfusion hrt

/-- Whether the most recent completed round-trip, for whatever inputs it
was submitted, succeeded. -/
def mostRecentSucceeded (sys : Sys) : Bool :=
  match sys.roundTrips with
  | [] => false
  | rt :: _ => rt.result.isSome

/-- Invariant tying the address to the ghost history: the address is the
one recorded by the most recent round-trip, and every successful recorded
round-trip returned a non-empty address. -/
def GoodHistory (sys : Sys) : Prop :=
  sys.state.address = headAddr sys.roundTrips ∧
  ∀ rt ∈ sys.roundTrips, ∀ acc, rt.result = some acc → acc.address ≠ ""

lemma runAndRecord_empty (validateSeed : Validator) (sys : Sys)
    (h : falsy sys.state.seed = true) :
    runAndRecord validateSeed sys = sys := by
  simp [runAndRecord, runEffect, h]

lemma runAndRecord_success (validateSeed : Validator) (sys : Sys)
    (acc : AccountInfo) (h1 : falsy sys.state.seed = false)
    (h2 : validateSeed (sys.state.seed.getD "" ++ sys.state.path.getD "")
      sys.ty = some acc) :
    runAndRecord validateSeed sys =
      { sys with
        state := { sys.state with error := "", address := acc.address },
        roundTrips :=
          { seedAtCall := sys.state.seed, pathAtCall := sys.state.path,
            tyAtCall := sys.ty,
            suri := sys.state.seed.getD "" ++ sys.state.path.getD "",
            result := some acc } :: sys.roundTrips } := by
  simp [runAndRecord, runEffect, h1, h2]

lemma runAndRecord_failure (validateSeed : Validator) (sys : Sys)
    (h1 : falsy sys.state.seed = false)
    (h2 : validateSeed (sys.state.seed.getD "" ++ sys.state.path.getD "")
      sys.ty = none) :
    runAndRecord validateSeed sys =
      { sys with
        state := { sys.state with
                     address := "",
                     error := if falsy sys.state.path
                              then "Invalid mnemonic seed"
                              else "Invalid mnemonic seed or derivation path" },
        roundTrips :=
          { seedAtCall := sys.state.seed, pathAtCall := sys.state.path,
            tyAtCall := sys.ty,
            suri := sys.state.seed.getD "" ++ sys.state.path.getD "",
            result := none } :: sys.roundTrips } := by
  simp [runAndRecord, runEffect, h1, h2]

lemma goodHistory_runAndRecord (validateSeed : Validator)
    (hval : ∀ suri kt acc, validateSeed suri kt = some acc → acc.address ≠ "")
    (sys : Sys) (h : GoodHistory sys) :
    GoodHistory (runAndRecord validateSeed sys) := by
  cases hfs : falsy sys.state.seed with
  | true => rw [runAndRecord_empty validateSeed sys hfs]; exact h
  | false =>
    cases hv : validateSeed (sys.state.seed.getD "" ++ sys.state.path.getD "")
        sys.ty with
    | some acc =>
      rw [runAndRecord_success validateSeed sys acc hfs hv]
      refine ⟨rfl, ?_⟩
      intro rt hrt acc2 hres
      rcases List.mem_cons.mp hrt with hEq | hMem
      · subst hEq
        obtain rfl : acc = acc2 := Option.some.inj hres
        exact hval _ _ _ hv
      · exact h.2 rt hMem acc2 hres
    | none =>
      rw [runAndRecord_failure validateSeed sys hfs hv]
      refine ⟨rfl, ?_⟩
      intro rt hrt acc2 hres
      rcases List.mem_cons.mp hrt with hEq | hMem
      · subst hEq
        exact Option.noConfusion hres
      · exact h.2 rt hMem acc2 hres

lemma goodHistory_applyEvent (validateSeed : Validator)
    (hval : ∀ suri kt acc, validateSeed suri kt = some acc → acc.address ≠ "")
    (sys : Sys) (e : Event) (h : GoodHistory sys) :
    GoodHistory (applyEvent validateSeed sys e) := by
  cases e with
  | setSeed v => exact goodHistory_runAndRecord validateSeed hval _ ⟨h.1, h.2⟩
  | setPath v => exact goodHistory_runAndRecord validateSeed hval _ ⟨h.1, h.2⟩
  | setGenesis v => exact goodHistory_runAndRecord validateSeed hval _ ⟨h.1, h.2⟩
  | toggleAdvanced => exact ⟨h.1, h.2⟩
  | typeChange v =>
    by_cases hk : isKeypairType v = true
    · simp only [applyEvent, onTypeChangeHandler, hk, if_pos]
      exact goodHistory_runAndRecord validateSeed hval _ ⟨h.1, h.2⟩
    · simp only [applyEvent, onTypeChangeHandler, hk, if_neg, Bool.not_eq_true]
      exact ⟨h.1, h.2⟩

lemma goodHistory_foldl (validateSeed : Validator)
    (hval : ∀ suri kt acc, validateSeed suri kt = some acc → acc.address ≠ "")
    (es : List Event) :
    ∀ sys, GoodHistory sys →
      GoodHistory (es.foldl (applyEvent validateSeed) sys) := by
  induction es with
  | nil => intro sys h; exact h
  | cons e es ih =>
    intro sys h
    exact ih _ (goodHistory_applyEvent validateSeed hval sys e h)

lemma goodHistory_init (validateSeed : Validator)
    (hval : ∀ suri kt acc, validateSeed suri kt = some acc → acc.address ≠ "")
    (ty0 : String) : GoodHistory (initSys validateSeed ty0) := by
  apply goodHistory_runAndRecord validateSeed hval
  refine ⟨rfl, ?_⟩
  intro rt hrt
  exact absurd hrt (List.not_mem_nil rt)

lemma goodHistory_iff (sys : Sys) (h : GoodHistory sys) :
    (sys.state.address ≠ "" ↔ mostRecentSucceeded sys = true) := by
  obtain ⟨h1, h2⟩ := h
  cases hl : sys.roundTrips with
  | nil =>
    rw [hl] at h1
    simp [mostRecentSucceeded, hl, h1, headAddr]
  | cons rt rest =>
    rw [hl] at h1
    cases hr : rt.result with
    | some acc =>
      have hne : acc.address ≠ "" :=
        h2 rt (by rw [hl]; exact List.mem_cons_self rt rest) acc hr
      simp [headAddr, hr] at h1
      simp [mostRecentSucceeded, hl, hr, h1, hne]
    | none =>
      simp [headAddr, hr] at h1
      simp [mostRecentSucceeded, hl, hr, h1]

/-- Claim C2, amended: provided the validator only resolves with non-empty
addresses, in every reachable state the address is non-empty exactly when
the most recently completed round-trip succeeded — for whatever inputs
that round-trip was submitted.  The combination need not still be current:
emptying the seed completes no new round-trip and leaves the address of
the previous one in place. -/
theorem c2_invariant_amended (validateSeed : Validator) (ty0 : String)
    (sys : Sys) (hreach : reachable validateSeed ty0 sys)
    (hval : ∀ suri kt acc, validateSeed suri kt = some acc →
      acc.address ≠ "") :
    (sys.state.address ≠ "" ↔ mostRecentSucceeded sys = true) := by
  obtain ⟨es, rfl⟩ := hreach
  exact goodHistory_iff _
    (goodHistory_foldl validateSeed hval es _
      (goodHistory_init validateSeed hval ty0))

/-- The system state after typing a seed the sample validator accepts. -/
def successSys : Sys :=
  [Event.setSeed "good seed"].foldl (applyEvent sampleValidator)
    (initSys sampleValidator "sr25519")

/-- Claim C2 amended, witness: after one accepted seed, the address is
non-empty and the most recent round-trip succeeded. -/
theorem c2_invariant_amended_witness :
    (successSys.state.address ≠ "" ↔ mostRecentSucceeded successSys = true) :=
  c2_invariant_amended sampleValidator "sr25519" successSys
    ⟨[Event.setSeed "good seed"], rfl⟩
    (by
      intro suri kt acc h
      simp only [sampleValidator] at h
      split at h
      · obtain rfl : sampleAccount = acc := Option.some.inj h
        decide
      · exact Option.noConfusion h)

end SeedAndPath
